import Mathlib

/-!
Verification of the JSON-RPC 2.0 / MCP Streamable-HTTP dispatcher in
`python/streamablemcp/mcp_jsonrpc_server.py`.

The Python code is shallowly embedded: parsed JSON bodies become the `Json`
inductive below, Python dictionary/truthiness/equality idioms become explicit
helper functions, exceptions become `Except PyExc`, and the HTTP layer's
responses become the `HttpResp` inductive.  Python floats are modelled as exact
rationals; no property proved here depends on floating-point rounding.  The
wall clock (`datetime.now().isoformat()`) is modelled as a string parameter
`ts`, and `str(uuid.uuid4())` as a string parameter `uuid`.  Exception message
texts that interpolate arbitrary values are approximated where the exact text
is irrelevant to the protocol behaviour.
-/

namespace MCP

/-- A parsed JSON value as produced by Python's `json` module.  Integer and
decimal literals are kept distinct because Python's `json.loads` produces
`int` versus `float`, and the two behave differently (e.g. for `range`). -/
inductive Json where
  | null
  | bool (b : Bool)
  | int (n : Int)
  | float (q : ℚ)
  | str (s : String)
  | arr (xs : List Json)
  | obj (fields : List (String × Json))

/-- Python exceptions that the embedded code can raise. -/
inductive PyExc where
  | jsonDecodeError
  | valueError (msg : String)
  | typeError (msg : String)
  | zeroDivisionError
  | nameError (msg : String)
  | attributeError (msg : String)

/-- `isinstance(e, ValueError)`: `json.JSONDecodeError` subclasses `ValueError`. -/
def PyExc.isValueError : PyExc → Bool
  | .valueError _ => true
  | .jsonDecodeError => true
  | _ => false

/-- `isinstance(e, json.JSONDecodeError)`. -/
def PyExc.isJsonDecodeError : PyExc → Bool
  | .jsonDecodeError => true
  | _ => false

/-- `str(e)` for the exceptions above. -/
def PyExc.message : PyExc → String
  | .jsonDecodeError => "Expecting value: line 1 column 1 (char 0)"
  | .valueError m => m
  | .typeError m => m
  | .zeroDivisionError => "division by zero"
  | .nameError m => m
  | .attributeError m => m

/-- Key lookup in a decoded JSON object.  Python's `json.loads` builds a
`dict`, where a later duplicate key overwrites an earlier one, so the LAST
binding wins. -/
def lookupField : List (String × Json) → String → Option Json
  | [], _ => none
  | (k, v) :: rest, key =>
    match lookupField rest key with
    | some r => some r
    | none => if k == key then some v else none

/-- `key in d` for a decoded JSON object. -/
def hasKey (fields : List (String × Json)) (key : String) : Bool :=
  (lookupField fields key).isSome

/-- `d.get(key, dflt)`: the stored value if the key is present (JSON `null` is
stored as Python `None` and is returned as such), otherwise the default. -/
def dictGetD (fields : List (String × Json)) (key : String) (dflt : Json) : Json :=
  match lookupField fields key with
  | some v => v
  | none => dflt

/-- `d.get(key)` — absent keys give Python `None`, i.e. `Json.null`. -/
def dictGet (fields : List (String × Json)) (key : String) : Json :=
  dictGetD fields key .null

/-- `Json.null` is Python `None`; `x is None` / `x is not None` tests. -/
def Json.isNull : Json → Bool
  | .null => true
  | _ => false

/-- Python truthiness of a decoded JSON value. -/
def pyTruthy : Json → Bool
  | .null => false
  | .bool b => b
  | .int n => n != 0
  | .float q => q != 0
  | .str s => s != ""
  | .arr xs => !xs.isEmpty
  | .obj fs => !fs.isEmpty

/-- Python `v == s` against a string literal: only equal strings compare equal. -/
def pyEqStr (v : Json) (s : String) : Bool :=
  match v with
  | .str t => t == s
  | _ => false

/-- Python `v == True`: `True == 1` and `True == 1.0` also hold. -/
def pyEqTrue : Json → Bool
  | .bool b => b
  | .int n => n == 1
  | .float q => q == 1
  | _ => false

/-- Python `v == 0`: `False == 0`, `0 == 0`, `0.0 == 0` all hold. -/
def pyEqZero : Json → Bool
  | .bool b => !b
  | .int n => n == 0
  | .float q => q == 0
  | _ => false

/-- A Python value viewed as an `int` operand (`bool` is a subclass of `int`). -/
def Json.asIntNum : Json → Option Int
  | .int n => some n
  | .bool b => some (if b then 1 else 0)
  | _ => none

/-- A Python value viewed as a numeric operand of any kind. -/
def Json.asNum : Json → Option ℚ
  | .int n => some (n : ℚ)
  | .bool b => some (if b then 1 else 0)
  | .float q => some q
  | _ => none

/-- `str(v)` in Python, approximated for composite values (the exact text only
feeds human-readable error messages, never protocol decisions). -/
def pyStr : Json → String
  | .null => "None"
  | .bool b => if b then "True" else "False"
  | .int n => toString n
  | .float q => toString q
  | .str s => s
  | .arr _ => "[...]"
  | .obj _ => "\x7b...\x7d"

/-- `s * n` string repetition (non-positive `n` gives the empty string). -/
def strRepeat (s : String) (n : Int) : String :=
  String.join (List.replicate n.toNat s)

/-- `xs * n` list repetition. -/
def listRepeat (xs : List Json) (n : Int) : List Json :=
  List.flatten (List.replicate n.toNat xs)

/-- Python `a + b` on decoded JSON values. -/
def pyAdd (a b : Json) : Except PyExc Json :=
  match a.asIntNum, b.asIntNum with
  | some x, some y => .ok (.int (x + y))
  | _, _ =>
    match a.asNum, b.asNum with
    | some x, some y => .ok (.float (x + y))
    | _, _ =>
      match a, b with
      | .str s, .str t => .ok (.str (s ++ t))
      | .arr xs, .arr ys => .ok (.arr (xs ++ ys))
      | _, _ => .error (.typeError "unsupported operand type(s) for +")

/-- Python `a - b` on decoded JSON values. -/
def pySub (a b : Json) : Except PyExc Json :=
  match a.asIntNum, b.asIntNum with
  | some x, some y => .ok (.int (x - y))
  | _, _ =>
    match a.asNum, b.asNum with
    | some x, some y => .ok (.float (x - y))
    | _, _ => .error (.typeError "unsupported operand type(s) for -")

/-- Python `a * b` on decoded JSON values (including sequence repetition). -/
def pyMul (a b : Json) : Except PyExc Json :=
  match a.asIntNum, b.asIntNum with
  | some x, some y => .ok (.int (x * y))
  | some x, none =>
    match b with
    | .float q => .ok (.float ((x : ℚ) * q))
    | .str s => .ok (.str (strRepeat s x))
    | .arr xs => .ok (.arr (listRepeat xs x))
    | _ => .error (.typeError "unsupported operand type(s) for *")
  | none, some y =>
    match a with
    | .float q => .ok (.float (q * (y : ℚ)))
    | .str s => .ok (.str (strRepeat s y))
    | .arr xs => .ok (.arr (listRepeat xs y))
    | _ => .error (.typeError "unsupported operand type(s) for *")
  | none, none =>
    match a, b with
    | .float p, .float q => .ok (.float (p * q))
    | _, _ => .error (.typeError "unsupported operand type(s) for *")

/-- Python `a / b` (true division: numeric operands only, result is a float,
zero divisor raises `ZeroDivisionError`). -/
def pyDiv (a b : Json) : Except PyExc Json :=
  match a.asNum, b.asNum with
  | some x, some y =>
    if y == 0 then .error .zeroDivisionError else .ok (.float (x / y))
  | _, _ => .error (.typeError "unsupported operand type(s) for /")

/-- `range(count)` as used by `for i in range(count)`: the number of
iterations; non-integer arguments raise `TypeError` (a Python `bool` is an
`int`). -/
def pyRangeLen : Json → Except PyExc Nat
  | .int n => .ok n.toNat
  | .bool b => .ok (if b then 1 else 0)
  | _ => .error (.typeError "\x27float\x27 object cannot be interpreted as an integer")

/-- The `TOOLS` registry keys of the server. -/
def TOOLS : List String := ["get_weather", "calculate", "stream_data"]

/-- `method in TOOLS`: dictionary-key membership.  Unhashable values (lists,
dicts) raise `TypeError`; other non-string values simply fail to match. -/
def pyInTools (method : Json) : Except PyExc Bool :=
  match method with
  | .arr _ => .error (.typeError "unhashable type: \x27list\x27")
  | .obj _ => .error (.typeError "unhashable type: \x27dict\x27")
  | .str s => .ok (TOOLS.contains s)
  | _ => .ok false

/-- `{"code": c, "message": m}` error payloads built at every error site. -/
def mkErr (c : Int) (m : String) : Json :=
  .obj [("code", .int c), ("message", .str m)]

/-- `create_response(result, error, request_id)` from the source: starts from
`{"jsonrpc": "2.0"}`, adds `error` when truthy, adds `result` when it
`is not None`, adds `id` when it `is not None`. -/
def create_response (result error request_id : Json) : Json :=
  .obj ([("jsonrpc", .str "2.0")]
    ++ (if pyTruthy error then [("error", error)] else [])
    ++ (if result.isNull then [] else [("result", result)])
    ++ (if request_id.isNull then [] else [("id", request_id)]))

/-- `is_notification_or_response(body)`: a dict with `method` but no `id`, or
a dict with `result` or `error` but no `method`. -/
def is_notification_or_response (body : Json) : Bool :=
  match body with
  | .obj fs =>
    (hasKey fs "method" && !(hasKey fs "id")) ||
    ((hasKey fs "result" || hasKey fs "error") && !(hasKey fs "method"))
  | _ => false

/-- `is_streaming_request(body)`: the method is one of the three tool names
and `params.get("stream") == True`.  The disjunction short-circuits, so
`params.get` is only reached — and can only raise `AttributeError` on a
non-dict `params` — when the method name matches one of the three. -/
def is_streaming_request (body : Json) : Except PyExc Bool :=
  match body with
  | .obj fs =>
    let method := dictGet fs "method"
    let params := dictGetD fs "params" (.obj [])
    if pyEqStr method "stream_data" || pyEqStr method "get_weather" ||
        pyEqStr method "calculate" then
      match params with
      | .obj ps => .ok (pyEqTrue (dictGet ps "stream"))
      | _ => .error (.attributeError "object has no attribute \x27get\x27")
    else
      .ok false
  | _ => .ok false

/-- `execute_tool(tool_name, params)`.  The timestamp `ts` stands for
`datetime.now().isoformat()`.  Calling `.get` on a non-dict `params` raises
`AttributeError`; the `calculate` tool raises `ValueError` on division by zero
and on an unknown operation. -/
def execute_tool (ts : String) (tool_name : String) (params : Json) : Except PyExc Json :=
  if tool_name == "get_weather" then
    match params with
    | .obj ps =>
      let location := dictGetD ps "location" (.str "서울")
      .ok (.obj [("location", location), ("temperature", .str "22°C"),
                 ("condition", .str "맑음"), ("humidity", .str "65%"),
                 ("timestamp", .str ts)])
    | _ => .error (.attributeError "object has no attribute \x27get\x27")
  else if tool_name == "calculate" then
    match params with
    | .obj ps =>
      let operation := dictGet ps "operation"
      let a := dictGet ps "a"
      let b := dictGet ps "b"
      let computed : Except PyExc Json :=
        if pyEqStr operation "add" then pyAdd a b
        else if pyEqStr operation "subtract" then pySub a b
        else if pyEqStr operation "multiply" then pyMul a b
        else if pyEqStr operation "divide" then
          if pyEqZero b then .error (.valueError "Division by zero") else pyDiv a b
        else .error (.valueError ("Unknown operation: " ++ pyStr operation))
      match computed with
      | .ok result =>
        .ok (.obj [("operation", operation), ("a", a), ("b", b),
                   ("result", result), ("timestamp", .str ts)])
      | .error e => .error e
    | _ => .error (.attributeError "object has no attribute \x27get\x27")
  else if tool_name == "stream_data" then
    match params with
    | .obj ps =>
      let count := dictGetD ps "count" (.int 5)
      .ok (.obj [("message", .str (pyStr count ++ "개의 데이터를 생성했습니다")),
                 ("count", count), ("timestamp", .str ts)])
    | _ => .error (.attributeError "object has no attribute \x27get\x27")
  else .error (.valueError ("Unknown tool: " ++ tool_name))

/-- An HTTP response produced by the POST/GET handlers: a JSON body written
with `json.dumps`, a bodiless response (e.g. the bare `Response(202)`), or a
`StreamingResponse` carrying SSE frames.  Each frame is modelled by the
decoded payload of one `data: <json>\n\n` line. -/
inductive HttpResp where
  | json (status : Nat) (body : Json)
  | empty (status : Nat)
  | sse (frames : List Json)

/-- The extra headers attached at each construction site in the source:
`Response(...)` is always built without extra headers, while every
`StreamingResponse(...)` is built with exactly this header dict. -/
def sseHeaders : List (String × String) :=
  [("Cache-Control", "no-cache"), ("Connection", "keep-alive"),
   ("Access-Control-Allow-Origin", "*")]

/-- The extra headers of a response, by construction site (see `sseHeaders`). -/
def HttpResp.headers : HttpResp → List (String × String)
  | .json _ _ => []
  | .empty _ => []
  | .sse _ => sseHeaders

/-- `process_single(request_data)`.  The returned list records the tool names
passed to `execute_tool`, i.e. which capabilities were actually invoked.  An
`Except.error` is an exception escaping `process_single` (the membership test
`method in TOOLS` sits outside the `try` block, so an unhashable method
propagates). -/
def process_single (ts : String) (request_data : Json) :
    Except PyExc HttpResp × List String :=
  match request_data with
  | .obj fs =>
    if !(pyEqStr (dictGet fs "jsonrpc") "2.0") then
      (.ok (.json 400 (create_response .null
        (mkErr (-32600) "jsonrpc must be \x272.0\x27") (dictGet fs "id"))), [])
    else
      let method := dictGet fs "method"
      if !(pyTruthy method) then
        (.ok (.json 400 (create_response .null
          (mkErr (-32600) "method is required") (dictGet fs "id"))), [])
      else
        let params := dictGetD fs "params" (.obj [])
        let request_id := dictGet fs "id"
        if request_id.isNull then
          (.ok (.empty 202), [])
        else
          match method with
          | .arr _ => (.error (.typeError "unhashable type: \x27list\x27"), [])
          | .obj _ => (.error (.typeError "unhashable type: \x27dict\x27"), [])
          | .str s =>
            if TOOLS.contains s then
              match execute_tool ts s params with
              | .ok result =>
                (.ok (.json 200 (create_response result .null request_id)), [s])
              | .error e =>
                if e.isValueError then
                  (.ok (.json 400 (create_response .null
                    (mkErr (-32602) e.message) request_id)), [s])
                else
                  (.ok (.json 500 (create_response .null
                    (mkErr (-32603) e.message) request_id)), [s])
            else
              (.ok (.json 404 (create_response .null
                (mkErr (-32601) ("Method \x27" ++ s ++ "\x27 not found"))
                request_id)), [])
          | _ =>
            (.ok (.json 404 (create_response .null
              (mkErr (-32601) ("Method \x27" ++ pyStr method ++ "\x27 not found"))
              request_id)), [])
  | _ =>
    (.ok (.json 400 (create_response .null
      (mkErr (-32600) "Invalid Request") .null)), [])

/-- The body re-parsing step of `process_batch`: every `Response` object has a
`.body` attribute, so the per-element result is passed through
`json.loads(result.body.decode())`.  A bodiless response (such as the 202 of a
notification) has `body = b""`, and `json.loads("")` raises
`json.JSONDecodeError`.  (`StreamingResponse` is never produced by
`process_single`; it lacks `.body`, and appending the raw object would make
the final `json.dumps` raise `TypeError`.) -/
def decodeBody : HttpResp → Except PyExc Json
  | .json _ b => .ok b
  | .empty _ => .error .jsonDecodeError
  | .sse _ => .error (.typeError "Object of type StreamingResponse is not JSON serializable")

/-- The `for request_data in requests` loop of `process_batch`, collecting the
re-parsed per-element bodies in order and stopping at the first escaping
exception. -/
def batchLoop (ts : String) : List Json → Except PyExc (List Json) × List String
  | [] => (.ok [], [])
  | r :: rest =>
    match process_single ts r with
    | (.error e, tr) => (.error e, tr)
    | (.ok resp, tr) =>
      match decodeBody resp with
      | .error e => (.error e, tr)
      | .ok data =>
        match batchLoop ts rest with
        | (.error e, tr2) => (.error e, tr ++ tr2)
        | (.ok datas, tr2) => (.ok (data :: datas), tr ++ tr2)

/-- `process_batch(requests)`: an empty list is answered with HTTP 400 whose
body is a LIST containing one `-32600` error response (the source wraps
`create_response(...)` in `[...]`); otherwise the collected bodies are
returned as a JSON array with the default 200 status. -/
def process_batch (ts : String) (requests : List Json) :
    Except PyExc HttpResp × List String :=
  match requests with
  | [] =>
    (.ok (.json 400 (.arr [create_response .null
      (mkErr (-32600) "Empty batch") .null])), [])
  | _ =>
    match batchLoop ts requests with
    | (.ok datas, tr) => (.ok (.json 200 (.arr datas)), tr)
    | (.error e, tr) => (.error e, tr)

/-- The `if/elif` arithmetic chain of the streaming `calculate` branch, run
after the explicit divide-by-zero guard.  An operation that matches none of
the four names leaves the Python local `result` unbound, so the yield of the
complete frame raises `NameError`. -/
def calcStreamResult (operation a b : Json) : Except PyExc Json :=
  if pyEqStr operation "add" then pyAdd a b
  else if pyEqStr operation "subtract" then pySub a b
  else if pyEqStr operation "multiply" then pyMul a b
  else if pyEqStr operation "divide" then pyDiv a b
  else .error (.nameError "name \x27result\x27 is not defined")

/-- `handle_streaming_request(request_data)` as the list of decoded SSE frame
payloads it yields.  `uuid` stands for `str(uuid.uuid4())` (the default id).
All exceptions raised inside the generator are caught
by its `try/except`, which yields one `-32603` error frame; note that the
`params.get(...)` calls run BEFORE the start frame is yielded, so a non-dict
`params` produces a lone error frame.  An unknown `calculate` operation leaves
the Python local `result` unbound, so the complete-frame yield raises
`NameError`, turned into an error frame.  (The function is only invoked by the
route after `is_streaming_request` returned `True`, which guarantees a dict
body.) -/
def handle_streaming_request (uuid : String) (request_data : Json) : List Json :=
  match request_data with
  | .obj fs =>
    let method := dictGet fs "method"
    let params := dictGetD fs "params" (.obj [])
    let request_id := dictGetD fs "id" (.str uuid)
    if pyEqStr method "get_weather" then
      match params with
      | .obj ps =>
        let location := dictGetD ps "location" (.str "서울")
        create_response (.obj [("status", .str "start"), ("tool", method)])
            .null request_id ::
        ([("location", location), ("temperature", Json.str "22°C"),
          ("condition", Json.str "맑음"), ("humidity", Json.str "65%")].map
          (fun fv => create_response
            (.obj [("status", .str "data"), ("field", .str fv.1), ("value", fv.2)])
            .null request_id)) ++
        [create_response (.obj [("status", .str "complete"), ("tool", method)])
            .null request_id]
      | _ => [create_response .null
          (mkErr (-32603) "object has no attribute \x27get\x27") request_id]
    else if pyEqStr method "calculate" then
      match params with
      | .obj ps =>
        let operation := dictGet ps "operation"
        let a := dictGet ps "a"
        let b := dictGet ps "b"
        let startF := create_response
          (.obj [("status", .str "start"), ("tool", method), ("operation", operation)])
          .null request_id
        if pyEqStr operation "divide" && pyEqZero b then
          [startF, create_response .null
            (mkErr (-32602) "Division by zero") request_id]
        else
          match calcStreamResult operation a b with
          | .ok result =>
            [startF, create_response
              (.obj [("status", .str "complete"), ("result", result)])
              .null request_id]
          | .error e =>
            [startF, create_response .null (mkErr (-32603) e.message) request_id]
      | _ => [create_response .null
          (mkErr (-32603) "object has no attribute \x27get\x27") request_id]
    else if pyEqStr method "stream_data" then
      match params with
      | .obj ps =>
        let count := dictGetD ps "count" (.int 5)
        let startF := create_response
          (.obj [("status", .str "start"), ("tool", method), ("count", count)])
          .null request_id
        match pyRangeLen count with
        | .ok n =>
          startF ::
          ((List.range n).map (fun i => create_response
            (.obj [("status", .str "data"), ("index", .int (i + 1)),
                   ("value", .str ("데이터 " ++ toString (i + 1)))])
            .null request_id)) ++
          [create_response
            (.obj [("status", .str "complete"), ("total", count)])
            .null request_id]
        | .error e =>
          [startF, create_response .null (mkErr (-32603) e.message) request_id]
      | _ => [create_response .null
          (mkErr (-32603) "object has no attribute \x27get\x27") request_id]
    else []
  | _ => []

/-- The `except` clauses of `handle_mcp_post`: `json.JSONDecodeError` is
answered with a `-32700` "Parse error" response (HTTP 400, `request_id=None`),
any other exception with a `-32603` response carrying `str(e)` (HTTP 500). -/
def exceptionResponse (e : PyExc) : HttpResp :=
  if e.isJsonDecodeError then
    .json 400 (create_response .null (mkErr (-32700) "Parse error") .null)
  else
    .json 500 (create_response .null (mkErr (-32603) e.message) .null)

/-- `handle_mcp_post` after the body has been parsed into `body`.  The
`mcp_session_id` parameter mirrors the `Mcp-Session-Id` header argument of the
route; the handler body never reads it.  The second component records which
tools `execute_tool` was invoked for during the exchange. -/
def handle_mcp_post (ts uuid : String) (mcp_session_id : Option String)
    (body : Json) : HttpResp × List String :=
  if is_notification_or_response body then
    (.empty 202, [])
  else
    match is_streaming_request body with
    | .error e => (exceptionResponse e, [])
    | .ok true => (.sse (handle_streaming_request uuid body), [])
    | .ok false =>
      match body with
      | .arr xs =>
        match process_batch ts xs with
        | (.ok r, tr) => (r, tr)
        | (.error e, tr) => (exceptionResponse e, tr)
      | _ =>
        match process_single ts body with
        | (.ok r, tr) => (r, tr)
        | (.error e, tr) => (exceptionResponse e, tr)

/-- The `sse_stream` generator of `handle_mcp_get`: one fixed
`server_notification` frame, then the `for i in range(5)` loop emits exactly
five heartbeat frames (one per 2-second sleep), after which the generator is
exhausted and the stream ends. -/
def sse_stream : List Json :=
  (.obj [("jsonrpc", .str "2.0"), ("method", .str "server_notification"),
         ("params", .obj [("message", .str "SSE stream started")])]) ::
  (List.range 5).map (fun i =>
    .obj [("jsonrpc", .str "2.0"), ("method", .str "server_notification"),
          ("params", .obj [("message",
            .str ("Server heartbeat " ++ toString (i + 1)))])])

/-- The `status` field of a frame payload's `result` object (`Json.null` when
the payload has no `result` object or no `status` field). -/
def frameStatus (f : Json) : Json :=
  match f with
  | .obj fs =>
    match lookupField fs "result" with
    | some (.obj rs) => dictGet rs "status"
    | _ => .null
  | _ => .null

/-- A frame whose payload reports `status: "start"`. -/
def isStartFrame (f : Json) : Bool := pyEqStr (frameStatus f) "start"

/-- A frame whose payload reports `status: "data"`. -/
def isDataFrame (f : Json) : Bool := pyEqStr (frameStatus f) "data"

/-- A frame whose payload reports `status: "complete"`. -/
def isCompleteFrame (f : Json) : Bool := pyEqStr (frameStatus f) "complete"

/-- A frame whose payload carries a JSON-RPC `error` member. -/
def isErrorFrame (f : Json) : Bool :=
  match f with
  | .obj fs => hasKey fs "error"
  | _ => false

/-- A valid unary request for the weather tool (id 1). -/
def reqWeather1 : Json :=
  .obj [("jsonrpc", .str "2.0"), ("method", .str "get_weather"),
        ("params", .obj [("location", .str "부산")]), ("id", .int 1)]

/-- A well-formed notification for the weather tool (no `id`). -/
def notifWeather : Json :=
  .obj [("jsonrpc", .str "2.0"), ("method", .str "get_weather"),
        ("params", .obj [])]

/-- A batch with N = 2 elements of which M = 1 is a notification. -/
def batchWithNotification : Json := .arr [reqWeather1, notifWeather]

/-- The fields of a request whose `id` field is present with value `null`. -/
def idNullFields : List (String × Json) :=
  [("jsonrpc", .str "2.0"), ("method", .str "get_weather"),
   ("params", .obj []), ("id", .null)]

/-- A request whose `id` field is present with value `null`. -/
def idNullRequest : Json := .obj idNullFields

/-- The fields of a notification envelope naming the `get_weather` capability. -/
def notifFields : List (String × Json) :=
  [("jsonrpc", .str "2.0"), ("method", .str "get_weather"),
   ("params", .obj [("location", .str "서울")])]

/-- A notification envelope naming the `get_weather` capability. -/
def notifEnvelope : Json := .obj notifFields

/-- A streaming request (`params.stream == true`) with NO `jsonrpc` field. -/
def noVersionStreaming : Json :=
  .obj [("method", .str "stream_data"),
        ("params", .obj [("stream", .bool true), ("count", .int 1)]), ("id", .int 7)]

/-- The fields of a non-streaming request with an unknown method and NO
`jsonrpc` field. -/
def noVersionFields : List (String × Json) :=
  [("method", .str "foo"), ("id", .int 1)]

/-- A valid unary request used to probe session-header handling (id 3). -/
def sessionProbe : Json :=
  .obj [("jsonrpc", .str "2.0"), ("method", .str "get_weather"),
        ("params", .obj []), ("id", .int 3)]

/-- The fields of an envelope with `method` absent and BOTH `result` and
`error` present. -/
def bothFields : List (String × Json) :=
  [("jsonrpc", .str "2.0"), ("result", .int 1),
   ("error", mkErr (-32000) "boom"), ("id", .int 4)]

/-- An envelope with `method` absent and BOTH `result` and `error` present. -/
def bothResultError : Json := .obj bothFields

/-- The divide-by-zero unary request of the spec's test list (id 5). -/
def divideByZeroRequest : Json :=
  .obj [("jsonrpc", .str "2.0"), ("method", .str "calculate"),
        ("params", .obj [("operation", .str "divide"), ("a", .int 10),
                         ("b", .int 0)]), ("id", .int 5)]

/-- A streaming-flagged weather request (id 9). -/
def weatherStreamRequest : Json :=
  .obj [("jsonrpc", .str "2.0"), ("method", .str "get_weather"),
        ("params", .obj [("location", .str "제주"), ("stream", .bool true)]),
        ("id", .int 9)]

/-- C1 (code bug): a 2-element batch containing one request and one
notification does not produce an array of N − M = 1 ResponseObjects.  For the
notification element `process_single` returns the bodiless 202 response, whose
empty body makes `json.loads(result.body.decode())` inside `process_batch`
raise `json.JSONDecodeError`; the escaping exception aborts the whole batch
and the handler answers a single top-level -32700 "Parse error" object with
HTTP 400.  (The first element had already been dispatched: the invocation
trace contains `get_weather`.) -/
theorem C1_batch_notification_crash (ts uuid : String) (sid : Option String) :
    handle_mcp_post ts uuid sid batchWithNotification =
      (.json 400 (.obj [("jsonrpc", .str "2.0"),
        ("error", .obj [("code", .int (-32700)), ("message", .str "Parse error")])]),
       ["get_weather"]) := rfl

/-- C6 (counterexample): the empty batch is answered with HTTP 400 and error
code -32600 with no id, but the body is a one-element JSON ARRAY containing
the error object — not a single top-level JSON object as claimed: the source
wraps `create_response(...)` in a list literal before `json.dumps`. -/
theorem C6_counterexample_empty_batch_array :
    (handle_mcp_post "T" "U" none (.arr [])).1 =
      .json 400 (.arr [.obj [("jsonrpc", .str "2.0"),
        ("error", .obj [("code", .int (-32600)), ("message", .str "Empty batch")])]]) :=
  rfl

/-- C6 (amended): the empty batch is answered with HTTP 400 whose body is an
array containing exactly one error ResponseObject with code -32600 and no id
field. -/
theorem C6_amended_empty_batch (ts uuid : String) (sid : Option String) :
    handle_mcp_post ts uuid sid (.arr []) =
      (.json 400 (.arr [create_response .null (mkErr (-32600) "Empty batch") .null]),
       []) := rfl

/-- C8 (counterexample): the server-push sequence on the GET connection is NOT
unbounded — it is false that it contains more than n frames for every n (its
heartbeat loop is `for i in range(5)`). -/
theorem C8_counterexample_bounded_stream : ¬ ∀ n : ℕ, n < sse_stream.length :=
  fun h => absurd (h 6) (by decide)

/-- C8 (amended): the GET push sequence consists of the initial
`server_notification` frame followed by exactly five heartbeat frames, six
frames in total, after which the generator ends. -/
theorem C8_amended_six_frames :
    sse_stream.length = 6 ∧
    sse_stream =
      [.obj [("jsonrpc", .str "2.0"), ("method", .str "server_notification"),
             ("params", .obj [("message", .str "SSE stream started")])],
       .obj [("jsonrpc", .str "2.0"), ("method", .str "server_notification"),
             ("params", .obj [("message", .str "Server heartbeat 1")])],
       .obj [("jsonrpc", .str "2.0"), ("method", .str "server_notification"),
             ("params", .obj [("message", .str "Server heartbeat 2")])],
       .obj [("jsonrpc", .str "2.0"), ("method", .str "server_notification"),
             ("params", .obj [("message", .str "Server heartbeat 3")])],
       .obj [("jsonrpc", .str "2.0"), ("method", .str "server_notification"),
             ("params", .obj [("message", .str "Server heartbeat 4")])],
       .obj [("jsonrpc", .str "2.0"), ("method", .str "server_notification"),
             ("params", .obj [("message", .str "Server heartbeat 5")])]] :=
  ⟨rfl, rfl⟩

/-- C10: the unary calculate request with `{operation:"divide", a:10, b:0}`
produces exactly one ResponseObject: HTTP 400, `error.code = -32602` with the
capability's "Division by zero" message (a `ValueError`, mapped to Invalid
params rather than Internal error), echoing the request id 5; the trace shows
the calculate capability was the one invoked. -/
theorem C10_divide_by_zero_invalid_params (ts uuid : String) (sid : Option String) :
    handle_mcp_post ts uuid sid divideByZeroRequest =
      (.json 400 (.obj [("jsonrpc", .str "2.0"),
        ("error", .obj [("code", .int (-32602)), ("message", .str "Division by zero")]),
        ("id", .int 5)]), ["calculate"]) := rfl

/-- C2 (counterexample): the request whose `id` field is present with value
`null` is NOT answered with a ResponseObject carrying `id: null` — it is
acknowledged with a bodiless HTTP 202 like a notification, because
`request_data.get("id")` yields Python `None` both for an absent `id` and for
`id = null`. -/
theorem C2_counterexample_id_null_202 :
    handle_mcp_post "T" "U" none idNullRequest = (.empty 202, []) := rfl

/-- C2 (amended): an envelope whose `id` field is present with value `null`
(and which passes the version and method checks) is treated exactly like an
id-absent notification by the single-request dispatcher: a bodiless 202, no
ResponseObject and no capability invocation. -/
theorem C2_amended_id_null_is_notification (ts : String) (fs : List (String × Json))
    (hv : lookupField fs "jsonrpc" = some (.str "2.0"))
    (hm : pyTruthy (dictGet fs "method") = true)
    (hid : lookupField fs "id" = some .null) :
    process_single ts (.obj fs) = (.ok (.empty 202), []) := by
  have hv' : dictGet fs "jsonrpc" = Json.str "2.0" := by
    simp [dictGet, dictGetD, hv]
  have hid' : dictGet fs "id" = Json.null := by
    simp [dictGet, dictGetD, hid]
  simp [process_single, hv', hm, hid', pyEqStr, Json.isNull]

/-- Witness for `C2_amended_id_null_is_notification` at the concrete
id-null request. -/
theorem C2_amended_witness :
    lookupField idNullFields "jsonrpc" = some (.str "2.0") ∧
    pyTruthy (dictGet idNullFields "method") = true ∧
    lookupField idNullFields "id" = some .null ∧
    process_single "T" (.obj idNullFields) = (.ok (.empty 202), []) :=
  ⟨rfl, rfl, rfl, C2_amended_id_null_is_notification "T" idNullFields rfl rfl rfl⟩

/-- C3 (counterexample): for a Notification naming the `get_weather`
capability the transport does answer 202 with an empty body — but the
capability is NEVER invoked: `handle_mcp_post` returns at the
`is_notification_or_response` check before any dispatch, so the invocation
trace is empty, refuting "the capability named by the method is invoked for
its effect". -/
theorem C3_counterexample_no_dispatch :
    handle_mcp_post "T" "U" none notifEnvelope = (.empty 202, []) := rfl

/-- C3 (amended): every Notification envelope (method present, id absent) is
acknowledged with HTTP 202 and an empty body, no JSON-RPC result or error is
emitted, and NO capability is invoked (the notification is dropped before
dispatch). -/
theorem C3_amended_notification_202_no_dispatch (ts uuid : String)
    (sid : Option String) (fs : List (String × Json))
    (hm : hasKey fs "method" = true) (hid : hasKey fs "id" = false) :
    handle_mcp_post ts uuid sid (.obj fs) = (.empty 202, []) := by
  simp [handle_mcp_post, is_notification_or_response, hm, hid]

/-- Witness for `C3_amended_notification_202_no_dispatch` at the concrete
weather notification. -/
theorem C3_amended_witness :
    hasKey notifFields "method" = true ∧ hasKey notifFields "id" = false ∧
    handle_mcp_post "T" "U" none (.obj notifFields) = (.empty 202, []) :=
  ⟨rfl, rfl, C3_amended_notification_202_no_dispatch "T" "U" none notifFields rfl rfl⟩

/-- C5 (counterexample): an envelope with NO `jsonrpc` field that requests
streaming (`method = "stream_data"`, `params.stream = true`) is NOT classified
as Malformed with a -32600 error ResponseObject: `is_streaming_request` runs
before any version validation, so the handler answers with an SSE stream of
frames. -/
theorem C5_counterexample_streaming_skips_version_check :
    handle_mcp_post "T" "U" none noVersionStreaming =
      (.sse [
        .obj [("jsonrpc", .str "2.0"),
              ("result", .obj [("status", .str "start"), ("tool", .str "stream_data"),
                               ("count", .int 1)]), ("id", .int 7)],
        .obj [("jsonrpc", .str "2.0"),
              ("result", .obj [("status", .str "data"), ("index", .int 1),
                               ("value", .str "데이터 1")]), ("id", .int 7)],
        .obj [("jsonrpc", .str "2.0"),
              ("result", .obj [("status", .str "complete"), ("total", .int 1)]),
              ("id", .int 7)]], []) := rfl

/-- C5 (amended): an envelope whose `jsonrpc` field is missing or not the
literal "2.0" is answered with the -32600 Invalid Request ResponseObject only
when it is not first consumed by the notification/response gate or the
streaming gate, both of which run before any version validation. -/
theorem C5_amended_version_check_after_gates (ts uuid : String) (sid : Option String)
    (fs : List (String × Json))
    (hv : pyEqStr (dictGet fs "jsonrpc") "2.0" = false)
    (hn : is_notification_or_response (.obj fs) = false)
    (hs : is_streaming_request (.obj fs) = Except.ok false) :
    handle_mcp_post ts uuid sid (.obj fs) =
      (.json 400 (create_response .null (mkErr (-32600) "jsonrpc must be \x272.0\x27")
        (dictGet fs "id")), []) := by
  simp [handle_mcp_post, hn, hs, process_single, hv]

/-- Witness for `C5_amended_version_check_after_gates` at a concrete
version-less non-streaming request. -/
theorem C5_amended_witness :
    pyEqStr (dictGet noVersionFields "jsonrpc") "2.0" = false ∧
    is_notification_or_response (.obj noVersionFields) = false ∧
    is_streaming_request (.obj noVersionFields) = Except.ok false ∧
    handle_mcp_post "T" "U" none (.obj noVersionFields) =
      (.json 400 (create_response .null (mkErr (-32600) "jsonrpc must be \x272.0\x27")
        (dictGet noVersionFields "id")), []) :=
  ⟨rfl, rfl, rfl,
   C5_amended_version_check_after_gates "T" "U" none noVersionFields rfl rfl rfl⟩

/-- C7 (counterexample): for a POST carrying an `Mcp-Session-Id` header the
identifier is NOT echoed back — the response carries no headers at all beyond
the construction defaults — and the handler's outcome is identical with and
without the header, so no new identifier is minted either. -/
theorem C7_counterexample_session_header_ignored :
    (handle_mcp_post "T" "U" (some "sess-abc-123") sessionProbe).1.headers = [] ∧
    handle_mcp_post "T" "U" (some "sess-abc-123") sessionProbe =
      handle_mcp_post "T" "U" none sessionProbe := ⟨rfl, rfl⟩

/-- C7 (amended): the `Mcp-Session-Id` header is accepted but ignored: the
handler's result never depends on it, and no response of the POST handler
carries an `Mcp-Session-Id` header (so nothing is echoed and no identifier is
minted). -/
theorem C7_amended_session_ignored (ts uuid : String) (sid sid2 : Option String)
    (body : Json) :
    handle_mcp_post ts uuid sid body = handle_mcp_post ts uuid sid2 body ∧
    "Mcp-Session-Id" ∉ ((handle_mcp_post ts uuid sid body).1.headers.map Prod.fst) := by
  refine ⟨rfl, ?_⟩
  cases (handle_mcp_post ts uuid sid body).1 <;>
    simp [HttpResp.headers, sseHeaders]

/-- C9 (counterexample): an envelope with `method` absent in which BOTH
`result` and `error` are present IS classified by
`is_notification_or_response` (its test is an OR, not an XOR) and IS
acknowledged with HTTP 202 and an empty body, contrary to the claim. -/
theorem C9_counterexample_both_result_error_202 :
    is_notification_or_response bothResultError = true ∧
    handle_mcp_post "T" "U" none bothResultError = (.empty 202, []) := ⟨rfl, rfl⟩

/-- C9 (amended): an envelope with `method` absent and AT LEAST one of
`result`/`error` present — including both at once — classifies as a Response
and is acknowledged with HTTP 202 and an empty body. -/
theorem C9_amended_or_not_xor (ts uuid : String) (sid : Option String)
    (fs : List (String × Json)) (hm : hasKey fs "method" = false)
    (hre : hasKey fs "result" = true ∨ hasKey fs "error" = true) :
    handle_mcp_post ts uuid sid (.obj fs) = (.empty 202, []) := by
  rcases hre with h | h <;>
    simp [handle_mcp_post, is_notification_or_response, hm, h]

/-- Witness for `C9_amended_or_not_xor` at the concrete envelope carrying both
`result` and `error`. -/
theorem C9_amended_witness :
    hasKey bothFields "method" = false ∧ hasKey bothFields "result" = true ∧
    handle_mcp_post "T" "U" none (.obj bothFields) = (.empty 202, []) :=
  ⟨rfl, rfl, C9_amended_or_not_xor "T" "U" none bothFields rfl (Or.inl rfl)⟩

/-- A frame built from a `result` object reports exactly that object's
`status` field. -/
theorem frameStatus_result (rs : List (String × Json)) (rid : Json) :
    frameStatus (create_response (.obj rs) .null rid) = dictGet rs "status" := by
  cases rid <;>
    simp [create_response, pyTruthy, Json.isNull, frameStatus, lookupField,
      dictGet, dictGetD]

/-- A frame built from a `result` object carries no `error` member. -/
theorem isErrorFrame_result (rs : List (String × Json)) (rid : Json) :
    isErrorFrame (create_response (.obj rs) .null rid) = false := by
  cases rid <;>
    simp [create_response, pyTruthy, Json.isNull, isErrorFrame, hasKey,
      lookupField]

/-- A frame built from an error payload has no `result`, hence no status. -/
theorem frameStatus_error (c : Int) (m : String) (rid : Json) :
    frameStatus (create_response .null (mkErr c m) rid) = .null := by
  cases rid <;>
    simp [create_response, mkErr, pyTruthy, Json.isNull, frameStatus,
      lookupField]

/-- A frame built from an error payload carries an `error` member. -/
theorem isErrorFrame_error (c : Int) (m : String) (rid : Json) :
    isErrorFrame (create_response .null (mkErr c m) rid) = true := by
  cases rid <;>
    simp [create_response, mkErr, pyTruthy, Json.isNull, isErrorFrame, hasKey,
      lookupField]

/-- Python `v == s` succeeding pins down the value. -/
theorem pyEqStr_eq_true {v : Json} {s : String} (h : pyEqStr v s = true) :
    v = .str s := by
  cases v <;> simp [pyEqStr] at h
  subst h; rfl

/-- Inversion of a successful streaming classification: the body is a dict,
its `params` value is a dict whose `stream` compares equal to `True`, and the
method is one of the three streaming-capable names. -/
theorem is_streaming_request_ok_true {body : Json}
    (h : is_streaming_request body = Except.ok true) :
    ∃ fs ps, body = .obj fs ∧ dictGetD fs "params" (.obj []) = .obj ps ∧
      pyEqTrue (dictGet ps "stream") = true ∧
      (dictGet fs "method" = .str "stream_data" ∨
       dictGet fs "method" = .str "get_weather" ∨
       dictGet fs "method" = .str "calculate") := by
  cases body with
  | obj fs =>
    simp only [is_streaming_request] at h
    split at h
    case isTrue hcond =>
      cases hps : dictGetD fs "params" (.obj []) <;> rw [hps] at h
      case null => exact absurd h (by simp)
      case bool b => exact absurd h (by simp)
      case int n => exact absurd h (by simp)
      case float q => exact absurd h (by simp)
      case str t => exact absurd h (by simp)
      case arr xs => exact absurd h (by simp)
      case obj ps =>
        refine ⟨fs, ps, rfl, hps, by simpa using h, ?_⟩
        simp only [Bool.or_eq_true] at hcond
        rcases hcond with (h1 | h2) | h3
        · exact Or.inl (pyEqStr_eq_true h1)
        · exact Or.inr (Or.inl (pyEqStr_eq_true h2))
        · exact Or.inr (Or.inr (pyEqStr_eq_true h3))
    case isFalse hcond => exact absurd h (by simp)
  | null => exact absurd h (by simp [is_streaming_request])
  | bool b => exact absurd h (by simp [is_streaming_request])
  | int n => exact absurd h (by simp [is_streaming_request])
  | float q => exact absurd h (by simp [is_streaming_request])
  | str s => exact absurd h (by simp [is_streaming_request])
  | arr xs => exact absurd h (by simp [is_streaming_request])

/-- C4: for every streaming-capable call (one of the three methods invoked
with `params.stream == true`) the emitted SSE frame sequence begins with
exactly one `status:"start"` frame, continues with zero or more
`status:"data"` frames in generation order, and ends with exactly one
terminal frame — a `status:"complete"` frame or an error frame, never both —
with no frame after the terminal frame. -/
theorem C4_streaming_frame_lifecycle (uuid : String) (body : Json)
    (h : is_streaming_request body = Except.ok true) :
    ∃ (s : Json) (ds : List Json) (t : Json),
      handle_streaming_request uuid body = s :: ds ++ [t] ∧
      isStartFrame s = true ∧ isErrorFrame s = false ∧
      (∀ d ∈ ds, isDataFrame d = true ∧ isStartFrame d = false ∧
        isCompleteFrame d = false ∧ isErrorFrame d = false) ∧
      ((isCompleteFrame t = true ∧ isErrorFrame t = false) ∨
       (isErrorFrame t = true ∧ isCompleteFrame t = false)) ∧
      isStartFrame t = false := by
  obtain ⟨fs, ps, rfl, hps, -, hm⟩ := is_streaming_request_ok_true h
  rcases hm with hm | hm | hm
  · -- method = "stream_data"
    cases hcnt : pyRangeLen (dictGetD ps "count" (.int 5)) with
    | ok n =>
      refine ⟨create_response (.obj [("status", .str "start"),
          ("tool", .str "stream_data"), ("count", dictGetD ps "count" (.int 5))])
          .null (dictGetD fs "id" (.str uuid)),
        (List.range n).map (fun i => create_response
          (.obj [("status", .str "data"), ("index", .int (i + 1)),
                 ("value", .str ("데이터 " ++ toString (i + 1)))])
          .null (dictGetD fs "id" (.str uuid))),
        create_response (.obj [("status", .str "complete"),
          ("total", dictGetD ps "count" (.int 5))])
          .null (dictGetD fs "id" (.str uuid)),
        ?_, ?_, ?_, ?_, ?_, ?_⟩
      · simp [handle_streaming_request, hm, hps, hcnt, pyEqStr]
      · simp [isStartFrame, frameStatus_result, dictGet, dictGetD, lookupField,
          pyEqStr]
      · exact isErrorFrame_result _ _
      · intro d hd
        obtain ⟨i, -, rfl⟩ := List.mem_map.mp hd
        refine ⟨?_, ?_, ?_, isErrorFrame_result _ _⟩ <;>
          simp [isDataFrame, isStartFrame, isCompleteFrame, frameStatus_result,
            dictGet, dictGetD, lookupField, pyEqStr]
      · refine Or.inl ⟨?_, isErrorFrame_result _ _⟩
        simp [isCompleteFrame, frameStatus_result, dictGet, dictGetD,
          lookupField, pyEqStr]
      · simp [isStartFrame, frameStatus_result, dictGet, dictGetD, lookupField,
          pyEqStr]
    | error e =>
      refine ⟨create_response (.obj [("status", .str "start"),
          ("tool", .str "stream_data"), ("count", dictGetD ps "count" (.int 5))])
          .null (dictGetD fs "id" (.str uuid)),
        [],
        create_response .null (mkErr (-32603) e.message)
          (dictGetD fs "id" (.str uuid)),
        ?_, ?_, ?_, ?_, ?_, ?_⟩
      · simp [handle_streaming_request, hm, hps, hcnt, pyEqStr]
      · simp [isStartFrame, frameStatus_result, dictGet, dictGetD, lookupField,
          pyEqStr]
      · exact isErrorFrame_result _ _
      · intro d hd; exact absurd hd (List.not_mem_nil d)
      · refine Or.inr ⟨isErrorFrame_error _ _ _, ?_⟩
        simp [isCompleteFrame, frameStatus_error, pyEqStr]
      · simp [isStartFrame, frameStatus_error, pyEqStr]
  · -- method = "get_weather"
    refine ⟨create_response (.obj [("status", .str "start"),
        ("tool", .str "get_weather")]) .null (dictGetD fs "id" (.str uuid)),
      [create_response (.obj [("status", .str "data"), ("field", .str "location"),
          ("value", dictGetD ps "location" (.str "서울"))])
          .null (dictGetD fs "id" (.str uuid)),
       create_response (.obj [("status", .str "data"), ("field", .str "temperature"),
          ("value", .str "22°C")]) .null (dictGetD fs "id" (.str uuid)),
       create_response (.obj [("status", .str "data"), ("field", .str "condition"),
          ("value", .str "맑음")]) .null (dictGetD fs "id" (.str uuid)),
       create_response (.obj [("status", .str "data"), ("field", .str "humidity"),
          ("value", .str "65%")]) .null (dictGetD fs "id" (.str uuid))],
      create_response (.obj [("status", .str "complete"),
        ("tool", .str "get_weather")]) .null (dictGetD fs "id" (.str uuid)),
      ?_, ?_, ?_, ?_, ?_, ?_⟩
    · simp [handle_streaming_request, hm, hps, pyEqStr]
    · simp [isStartFrame, frameStatus_result, dictGet, dictGetD, lookupField,
        pyEqStr]
    · exact isErrorFrame_result _ _
    · intro d hd
      simp only [List.mem_cons, List.not_mem_nil, or_false] at hd
      rcases hd with rfl | rfl | rfl | rfl <;>
        refine ⟨?_, ?_, ?_, isErrorFrame_result _ _⟩ <;>
          simp [isDataFrame, isStartFrame, isCompleteFrame, frameStatus_result,
            dictGet, dictGetD, lookupField, pyEqStr]
    · refine Or.inl ⟨?_, isErrorFrame_result _ _⟩
      simp [isCompleteFrame, frameStatus_result, dictGet, dictGetD, lookupField,
        pyEqStr]
    · simp [isStartFrame, frameStatus_result, dictGet, dictGetD, lookupField,
        pyEqStr]
  · -- method = "calculate"
    cases hdz : pyEqStr (dictGet ps "operation") "divide" && pyEqZero (dictGet ps "b") with
    | true =>
      refine ⟨create_response (.obj [("status", .str "start"),
          ("tool", .str "calculate"), ("operation", dictGet ps "operation")])
          .null (dictGetD fs "id" (.str uuid)),
        [],
        create_response .null (mkErr (-32602) "Division by zero")
          (dictGetD fs "id" (.str uuid)),
        ?_, ?_, ?_, ?_, ?_, ?_⟩
      · have e1 : pyEqStr (Json.str "calculate") "get_weather" = false := rfl
        have e2 : pyEqStr (Json.str "calculate") "calculate" = true := rfl
        simp [handle_streaming_request, hm, hps, e1, e2, hdz]
      · simp [isStartFrame, frameStatus_result, dictGet, dictGetD, lookupField,
          pyEqStr]
      · exact isErrorFrame_result _ _
      · intro d hd; exact absurd hd (List.not_mem_nil d)
      · refine Or.inr ⟨isErrorFrame_error _ _ _, ?_⟩
        simp [isCompleteFrame, frameStatus_error, pyEqStr]
      · simp [isStartFrame, frameStatus_error, pyEqStr]
    | false =>
      cases hc : calcStreamResult (dictGet ps "operation") (dictGet ps "a")
          (dictGet ps "b") with
      | ok r =>
        refine ⟨create_response (.obj [("status", .str "start"),
            ("tool", .str "calculate"), ("operation", dictGet ps "operation")])
            .null (dictGetD fs "id" (.str uuid)),
          [],
          create_response (.obj [("status", .str "complete"), ("result", r)])
            .null (dictGetD fs "id" (.str uuid)),
          ?_, ?_, ?_, ?_, ?_, ?_⟩
        · have e1 : pyEqStr (Json.str "calculate") "get_weather" = false := rfl
          have e2 : pyEqStr (Json.str "calculate") "calculate" = true := rfl
          simp [handle_streaming_request, hm, hps, e1, e2, hdz, hc]
        · simp [isStartFrame, frameStatus_result, dictGet, dictGetD, lookupField,
            pyEqStr]
        · exact isErrorFrame_result _ _
        · intro d hd; exact absurd hd (List.not_mem_nil d)
        · refine Or.inl ⟨?_, isErrorFrame_result _ _⟩
          simp [isCompleteFrame, frameStatus_result, dictGet, dictGetD,
            lookupField, pyEqStr]
        · simp [isStartFrame, frameStatus_result, dictGet, dictGetD, lookupField,
            pyEqStr]
      | error e =>
        refine ⟨create_response (.obj [("status", .str "start"),
            ("tool", .str "calculate"), ("operation", dictGet ps "operation")])
            .null (dictGetD fs "id" (.str uuid)),
          [],
          create_response .null (mkErr (-32603) e.message)
            (dictGetD fs "id" (.str uuid)),
          ?_, ?_, ?_, ?_, ?_, ?_⟩
        · have e1 : pyEqStr (Json.str "calculate") "get_weather" = false := rfl
          have e2 : pyEqStr (Json.str "calculate") "calculate" = true := rfl
          simp [handle_streaming_request, hm, hps, e1, e2, hdz, hc]
        · simp [isStartFrame, frameStatus_result, dictGet, dictGetD, lookupField,
            pyEqStr]
        · exact isErrorFrame_result _ _
        · intro d hd; exact absurd hd (List.not_mem_nil d)
        · refine Or.inr ⟨isErrorFrame_error _ _ _, ?_⟩
          simp [isCompleteFrame, frameStatus_error, pyEqStr]
        · simp [isStartFrame, frameStatus_error, pyEqStr]

/-- Witness for `C4_streaming_frame_lifecycle` at a concrete streaming-flagged
weather request. -/
theorem C4_streaming_witness :
    is_streaming_request weatherStreamRequest = Except.ok true ∧
    (∃ (s : Json) (ds : List Json) (t : Json),
      handle_streaming_request "U" weatherStreamRequest = s :: ds ++ [t] ∧
      isStartFrame s = true ∧ isErrorFrame s = false ∧
      (∀ d ∈ ds, isDataFrame d = true ∧ isStartFrame d = false ∧
        isCompleteFrame d = false ∧ isErrorFrame d = false) ∧
      ((isCompleteFrame t = true ∧ isErrorFrame t = false) ∨
       (isErrorFrame t = true ∧ isCompleteFrame t = false)) ∧
      isStartFrame t = false) :=
  ⟨rfl, C4_streaming_frame_lifecycle "U" weatherStreamRequest rfl⟩

end MCP
